import Mathlib

/-!
Verification development for the aumos-shadow-ai-toolkit detection core.

Shallow embedding of the Python sources:
  - `core/providers.py` (provider registry and `resolve_provider`)
  - `core/services/detection_service.py` (sensitivity classifier, risk scorer,
    DNS and network-log detection pipelines)
  - `core/services/migration_service.py` (migration proposal mapper)
  - `core/services/amnesty_service.py` (amnesty program lifecycle)

Modelling conventions:
  - Python `str` is Lean `String`; all string operations (`lower`, `strip`,
    substring membership, prefix/suffix tests) are re-implemented structurally
    over `String.data : List Char` so that they reduce inside the kernel.
  - Python `float` and `Decimal` are modelled as `ℚ`.  Every numeric constant
    in the embedded tables is an exact decimal, and in the risk formula
    `raw * 100` is always an integer for table-derived weights, so exact
    rational arithmetic yields the same final two-decimal results as IEEE
    doubles do in the source.
  - Python `round(x, n)` (round-half-to-even) is `pyRound n x` below.
  - Python `dict` literals are insertion-ordered association lists
    (`List (String × α)`), and `dict.get(k, d)` is `dictGet`.
  - `datetime` values are rational timestamps in seconds; `timedelta(days=g)`
    is `g * 86400` seconds.
  - Persistence effects (the amnesty repository) are modelled by explicit
    state passing: the stored program is an input and the possibly-updated
    stored program is part of the result.
-/

/-! ## Python-style rounding over ℚ -/

/-- Round-half-to-even to the nearest integer, as Python's built-in `round`
does for the fractional part exactly one half. -/
def roundHalfToEven (x : ℚ) : ℤ :=
  if x - ⌊x⌋ < 1/2 then ⌊x⌋
  else if (1 : ℚ)/2 < x - ⌊x⌋ then ⌊x⌋ + 1
  else if 2 ∣ ⌊x⌋ then ⌊x⌋ else ⌊x⌋ + 1

/-- Python `round(x, ndigits)` over exact rationals. -/
def pyRound (ndigits : ℕ) (x : ℚ) : ℚ :=
  (roundHalfToEven (x * 10 ^ ndigits) : ℚ) / 10 ^ ndigits

/-! ## String primitives (structural, kernel-reducible) -/

/-- ASCII lower-casing of a single character, as Python `str.lower` acts on
the ASCII domain names and URL paths this system processes. -/
def lowerChar (c : Char) : Char :=
  if 65 ≤ c.toNat ∧ c.toNat ≤ 90 then Char.ofNat (c.toNat + 32) else c

/-- Python `s.lower()`. -/
def strLower (s : String) : String := ⟨s.data.map lowerChar⟩

/-- Python `s.strip()`: remove leading and trailing whitespace. -/
def strTrim (s : String) : String :=
  ⟨((s.data.dropWhile Char.isWhitespace).reverse.dropWhile Char.isWhitespace).reverse⟩

/-- Whether `frag` occurs contiguously inside `s` (Python `frag in s`). -/
def listContainsSub (frag : List Char) : List Char → Bool
  | [] => frag.isEmpty
  | c :: rest => frag.isPrefixOf (c :: rest) || listContainsSub frag rest

/-- Python `frag in s` for strings. -/
def strContainsSub (s frag : String) : Bool := listContainsSub frag.data s.data

/-- Python `s.startswith(p)`. -/
def strStartsWith (s p : String) : Bool := p.data.isPrefixOf s.data

/-- Python `s.endswith(p)`. -/
def strEndsWith (s p : String) : Bool := p.data.isSuffixOf s.data

/-- Python `s[n:]` (drop the first `n` characters). -/
def strDrop (s : String) (n : ℕ) : String := ⟨s.data.drop n⟩

/-- Python `s[:-n]` (drop the last `n` characters). -/
def strDropRight (s : String) (n : ℕ) : String := ⟨s.data.take (s.data.length - n)⟩

/-- Python `"*" in s` for a single character. -/
def strContainsChar (s : String) (c : Char) : Bool := s.data.contains c

/-! ## Python dict.get over insertion-ordered association lists -/

/-- Python `m.get(k, d)` for a dict embedded as an insertion-ordered
association list with distinct keys. -/
def dictGet {α : Type} (m : List (String × α)) (k : String) (d : α) : α :=
  match m.find? (fun kv => kv.1 == k) with
  | some kv => kv.2
  | none => d

/-! ## core/providers.py -/

/-- The `AI_PROVIDER_DOMAINS` dict from `core/providers.py`, in source order. -/
def AI_PROVIDER_DOMAINS : List (String × String) := [
  ("api.openai.com", "openai"),
  ("chat.openai.com", "openai"),
  ("platform.openai.com", "openai"),
  ("oaidalleapiprodscus.blob.core.windows.net", "openai"),
  ("openaiapi-prod.azure-api.net", "openai"),
  ("api.anthropic.com", "anthropic"),
  ("claude.ai", "anthropic"),
  ("generativelanguage.googleapis.com", "google"),
  ("aiplatform.googleapis.com", "google"),
  ("us-central1-aiplatform.googleapis.com", "google"),
  ("europe-west1-aiplatform.googleapis.com", "google"),
  ("asia-east1-aiplatform.googleapis.com", "google"),
  ("bard.google.com", "google"),
  ("makersuite.google.com", "google"),
  ("*.openai.azure.com", "azure-openai"),
  ("bedrock-runtime.us-east-1.amazonaws.com", "aws-bedrock"),
  ("bedrock-runtime.us-west-2.amazonaws.com", "aws-bedrock"),
  ("bedrock-runtime.eu-west-1.amazonaws.com", "aws-bedrock"),
  ("bedrock-runtime.ap-southeast-1.amazonaws.com", "aws-bedrock"),
  ("bedrock-runtime.ap-northeast-1.amazonaws.com", "aws-bedrock"),
  ("*.bedrock-runtime.*.amazonaws.com", "aws-bedrock"),
  ("api.cohere.ai", "cohere"),
  ("api.cohere.com", "cohere"),
  ("dashboard.cohere.com", "cohere"),
  ("api.mistral.ai", "mistral"),
  ("console.mistral.ai", "mistral"),
  ("api-inference.huggingface.co", "huggingface"),
  ("router.huggingface.co", "huggingface"),
  ("huggingface.co", "huggingface"),
  ("api.replicate.com", "replicate"),
  ("replicate.com", "replicate"),
  ("api.together.xyz", "together"),
  ("api.together.ai", "together"),
  ("api.perplexity.ai", "perplexity"),
  ("www.perplexity.ai", "perplexity"),
  ("api.groq.com", "groq"),
  ("console.groq.com", "groq"),
  ("api.deepseek.com", "deepseek"),
  ("platform.deepseek.com", "deepseek"),
  ("api.x.ai", "xai"),
  ("x.ai", "xai"),
  ("api.stability.ai", "stability"),
  ("platform.stability.ai", "stability"),
  ("api.elevenlabs.io", "elevenlabs"),
  ("elevenlabs.io", "elevenlabs"),
  ("api.midjourney.com", "midjourney"),
  ("discord.com", "midjourney"),
  ("api.runwayml.com", "runway"),
  ("runwayml.com", "runway"),
  ("api.character.ai", "character-ai"),
  ("plus.character.ai", "character-ai"),
  ("openrouter.ai", "openrouter"),
  ("api.openrouter.ai", "openrouter"),
  ("api.fireworks.ai", "fireworks"),
  ("app.fireworks.ai", "fireworks"),
  ("api.endpoints.anyscale.com", "anyscale"),
  ("console.anyscale.com", "anyscale"),
  ("api.lepton.ai", "lepton"),
  ("api.aleph-alpha.com", "aleph-alpha"),
  ("api.ai21.com", "ai21"),
  ("studio.ai21.com", "ai21"),
  ("api.inflection.ai", "inflection"),
  ("pi.ai", "inflection"),
  ("api.novita.ai", "novita"),
  ("api.cerebras.ai", "cerebras"),
  ("inference.cerebras.ai", "cerebras"),
  ("api.scale.com", "scale"),
  ("spellbook.scale.com", "scale"),
  ("compass.cohere.com", "cohere"),
  ("api.writer.com", "writer"),
  ("app.writer.com", "writer"),
  ("api.jasper.ai", "jasper"),
  ("app.jasper.ai", "jasper"),
  ("api.copy.ai", "copy-ai"),
  ("app.copy.ai", "copy-ai")]

/-- `WILDCARD_AI_PROVIDER_DOMAINS`: entries whose pattern contains `*`. -/
def WILDCARD_AI_PROVIDER_DOMAINS : List (String × String) :=
  AI_PROVIDER_DOMAINS.filter (fun kv => strContainsChar kv.1 '*')

/-- `EXACT_AI_PROVIDER_DOMAINS`: entries whose pattern contains no `*`. -/
def EXACT_AI_PROVIDER_DOMAINS : List (String × String) :=
  AI_PROVIDER_DOMAINS.filter (fun kv => !(strContainsChar kv.1 '*'))

/-- The wildcard loop of `resolve_provider`: scan pattern entries in order;
a pattern starting with `*.` matches by suffix (excluding the bare base
domain), a pattern ending in `.*` matches by prefix followed by a dot. -/
def wildcardScan : List (String × String) → String → Option String
  | [], _ => none
  | (pat, provider) :: rest, domain =>
    if strStartsWith pat "*." then
      if strEndsWith domain (strDrop pat 2) && domain != strDrop pat 2 then some provider
      else wildcardScan rest domain
    else if strEndsWith pat ".*" then
      if strStartsWith domain (strDropRight pat 2 ++ ".") then some provider
      else wildcardScan rest domain
    else wildcardScan rest domain

/-- `resolve_provider` from `core/providers.py`: exact dictionary lookup
first, then the wildcard scan; `none` when neither table matches. -/
def resolve_provider (domain : String) : Option String :=
  match EXACT_AI_PROVIDER_DOMAINS.find? (fun kv => kv.1 == domain) with
  | some kv => some kv.2
  | none => wildcardScan WILDCARD_AI_PROVIDER_DOMAINS domain

/-- Claim-side wildcard matcher, worded from the specification: a `*.suffix`
pattern matches iff the domain ends with the suffix and differs from it; a
`prefix.*` pattern matches iff the domain starts with the prefix followed by
a dot. -/
def wildcardMatches (pat domain : String) : Bool :=
  if strStartsWith pat "*." then
    strEndsWith domain (strDrop pat 2) && domain != strDrop pat 2
  else if strEndsWith pat ".*" then
    strStartsWith domain (strDropRight pat 2 ++ ".")
  else false

/-- Claim-side resolver, worded from the specification: exact lookup first,
then the first wildcard entry whose pattern matches, else absent. -/
def resolveProviderSpec (domain : String) : Option String :=
  match EXACT_AI_PROVIDER_DOMAINS.find? (fun kv => kv.1 == domain) with
  | some kv => some kv.2
  | none =>
    (WILDCARD_AI_PROVIDER_DOMAINS.find? (fun kv => wildcardMatches kv.1 domain)).map
      (fun kv => kv.2)

/-! ## core/services/detection_service.py — constants -/

/-- Fine-tuning/training path fragments (the set literal inlined in
`classify_data_sensitivity`). -/
def FINE_TUNING_FRAGMENTS : List String := ["/fine-tunes", "/fine_tuning", "/training"]

/-- `_HIGH_SENSITIVITY_PATH_FRAGMENTS` frozenset (order irrelevant: only used
through `any`). -/
def HIGH_SENSITIVITY_PATH_FRAGMENTS : List String := [
  "/v1/chat/completions",
  "/v1/completions",
  "/v1/embeddings",
  "/messages",
  "/generate",
  "/invoke",
  "/fine-tunes",
  "/fine_tuning",
  "/assistants",
  "/threads",
  "/runs"]

/-- `_MEDIUM_SENSITIVITY_BYTES`. -/
def MEDIUM_SENSITIVITY_BYTES : ℤ := 4096

/-- `_HIGH_SENSITIVITY_BYTES`. -/
def HIGH_SENSITIVITY_BYTES : ℤ := 32768

/-- `_CRITICAL_SENSITIVITY_BYTES`. -/
def CRITICAL_SENSITIVITY_BYTES : ℤ := 131072

/-- `_PROVIDER_RISK_WEIGHTS` from the detection service, in source order. -/
def PROVIDER_RISK_WEIGHTS : List (String × ℚ) := [
  ("openai", 6/10),
  ("anthropic", 5/10),
  ("google", 5/10),
  ("azure-openai", 3/10),
  ("aws-bedrock", 3/10),
  ("cohere", 6/10),
  ("mistral", 7/10),
  ("huggingface", 7/10),
  ("replicate", 8/10),
  ("together", 8/10),
  ("perplexity", 8/10),
  ("groq", 7/10),
  ("deepseek", 9/10),
  ("xai", 7/10),
  ("stability", 6/10),
  ("elevenlabs", 6/10),
  ("midjourney", 7/10),
  ("runway", 7/10),
  ("character-ai", 9/10),
  ("openrouter", 8/10),
  ("fireworks", 7/10),
  ("anyscale", 6/10),
  ("lepton", 8/10),
  ("aleph-alpha", 4/10),
  ("ai21", 7/10),
  ("inflection", 8/10),
  ("novita", 9/10),
  ("cerebras", 6/10),
  ("scale", 5/10),
  ("writer", 6/10),
  ("jasper", 7/10),
  ("copy-ai", 7/10)]

/-- `_DEFAULT_PROVIDER_RISK`. -/
def DEFAULT_PROVIDER_RISK : ℚ := 8/10

/-- `_SENSITIVITY_WEIGHTS`. -/
def SENSITIVITY_WEIGHTS : List (String × ℚ) := [
  ("low", 1/10),
  ("medium", 4/10),
  ("high", 75/100),
  ("critical", 1)]

/-- `_PATH_TO_BUSINESS_VALUE`, in source order. -/
def PATH_TO_BUSINESS_VALUE : List (String × String) := [
  ("/v1/chat/completions", "text-generation"),
  ("/v1/completions", "text-generation"),
  ("/v1/embeddings", "data-analysis"),
  ("/messages", "text-generation"),
  ("/generate", "text-generation"),
  ("/invoke", "text-generation"),
  ("/fine-tunes", "code-assist"),
  ("/fine_tuning", "code-assist"),
  ("/images/generations", "image-generation"),
  ("/image", "image-generation"),
  ("/assistants", "productivity"),
  ("/threads", "productivity"),
  ("/runs", "productivity"),
  ("/audio", "productivity"),
  ("/transcriptions", "productivity")]

/-! ## Sensitivity classifier and risk scorer -/

/-- `ShadowAIDetectionService.classify_data_sensitivity`: the ordered
decision list over the lower-cased URL path and the request size. The
`domain` argument is accepted and ignored, as in the source. -/
def classify_data_sensitivity (domain url_path : String) (request_size_bytes : ℤ) : String :=
  let path_lower := strLower url_path
  if FINE_TUNING_FRAGMENTS.any (fun frag => strContainsSub path_lower frag) then "critical"
  else if request_size_bytes ≥ CRITICAL_SENSITIVITY_BYTES then "critical"
  else if request_size_bytes ≥ HIGH_SENSITIVITY_BYTES then "high"
  else if HIGH_SENSITIVITY_PATH_FRAGMENTS.any (fun frag => strContainsSub path_lower frag) then
    if request_size_bytes ≥ MEDIUM_SENSITIVITY_BYTES then "high" else "medium"
  else if request_size_bytes ≥ MEDIUM_SENSITIVITY_BYTES then "medium"
  else "low"

/-- `ShadowAIDetectionService.compute_risk_score`: the weighted composite
risk formula, producing a two-decimal score. -/
def compute_risk_score (sensitivity provider : String) (has_auth : Bool) : ℚ :=
  let sensitivity_weight := dictGet SENSITIVITY_WEIGHTS sensitivity (1/10)
  let base_compliance : ℚ := if has_auth then 6/10 else 3/10
  let compliance_risk :=
    if sensitivity = "high" ∨ sensitivity = "critical" then min (base_compliance + 2/10) 1
    else base_compliance
  let provider_risk := dictGet PROVIDER_RISK_WEIGHTS provider DEFAULT_PROVIDER_RISK
  let raw_score := sensitivity_weight * (4/10) + compliance_risk * (4/10) + provider_risk * (2/10)
  pyRound 2 (min (raw_score * 100) 100)

/-! ## Input and entity records -/

/-- `DNSQuery` (schemas_shadow.py). The `queried_at` timestamp is omitted:
the detection code never reads it. -/
structure DNSQuery where
  queried_domain : String
  source_ip : String
  has_auth_header : Bool

/-- `NetworkLogEntry` (schemas_shadow.py). `observed_at` and `protocol` are
omitted: the detection code never reads them. -/
structure NetworkLogEntry where
  source_ip : String
  destination_domain : String
  url_path : Option String
  request_size_bytes : ℤ
  has_auth_header : Bool

/-- `ShadowAIDetection` (models/shadow_detection.py), restricted to the
fields the detection pipeline computes. The generated UUID and the clock
timestamps are omitted: they are nondeterministic and no claim reads them.
`business_value_indicator` is an `Option` to model the SQL column that the
migration service defends against being null or empty. -/
structure ShadowAIDetection where
  tenant_id : ℕ
  source_ip : String
  destination_domain : String
  provider : String
  estimated_data_sensitivity : String
  estimated_daily_cost_usd : ℚ
  compliance_risk_score : ℚ
  business_value_indicator : Option String
  status : String

/-! ## DNS-based detection pipeline -/

/-- Detection record built for one deduplicated DNS query, exactly as the
loop body of `analyze_dns_queries` builds it (empty path and zero size are
passed to the classifier; the daily cost is the literal `0.0000`). -/
def mkDNSDetection (tenant_id : ℕ) (q : DNSQuery) (domain provider : String) :
    ShadowAIDetection :=
  let sensitivity := classify_data_sensitivity domain "" 0
  let risk_score := compute_risk_score sensitivity provider q.has_auth_header
  { tenant_id := tenant_id
    source_ip := q.source_ip
    destination_domain := domain
    provider := provider
    estimated_data_sensitivity := sensitivity
    estimated_daily_cost_usd := 0
    compliance_risk_score := pyRound 2 risk_score
    business_value_indicator := some "unknown"
    status := "detected" }

/-- The loop of `analyze_dns_queries`, with the `seen_domains` set made an
explicit parameter: resolve the normalized domain, skip unresolvable and
already-seen domains, emit one detection per first occurrence. -/
def analyzeDNSGo (tenant_id : ℕ) : List DNSQuery → List String → List ShadowAIDetection
  | [], _ => []
  | q :: rest, seen =>
    let domain := strTrim (strLower q.queried_domain)
    match resolve_provider domain with
    | none => analyzeDNSGo tenant_id rest seen
    | some provider =>
      if domain ∈ seen then analyzeDNSGo tenant_id rest seen
      else mkDNSDetection tenant_id q domain provider :: analyzeDNSGo tenant_id rest (domain :: seen)

/-- `ShadowAIDetectionService.analyze_dns_queries`. -/
def analyze_dns_queries (tenant_id : ℕ) (queries : List DNSQuery) : List ShadowAIDetection :=
  analyzeDNSGo tenant_id queries []

/-! ## Network-log detection pipeline -/

/-- One domain's aggregate in `detect_from_network_log`. `url_paths` models
the Python set as a first-insertion-ordered duplicate-free list. -/
structure DomainAggregate where
  provider : String
  source_ip : String
  url_path : String
  total_bytes : ℤ
  has_auth : Bool
  entry_count : ℤ
  url_paths : List String

/-- Initial aggregate for the first entry seen for a domain. -/
def initAggregate (provider : String) (e : NetworkLogEntry) : DomainAggregate :=
  { provider := provider
    source_ip := e.source_ip
    url_path := e.url_path.getD ""
    total_bytes := e.request_size_bytes
    has_auth := e.has_auth_header
    entry_count := 1
    url_paths := [e.url_path.getD ""] }

/-- Aggregate update for a repeated domain: sum bytes, OR auth, bump the
count, and add a truthy (non-null, non-empty) path to the path set. -/
def updateAggregate (e : NetworkLogEntry) (a : DomainAggregate) : DomainAggregate :=
  { a with
    total_bytes := a.total_bytes + e.request_size_bytes
    has_auth := a.has_auth || e.has_auth_header
    entry_count := a.entry_count + 1
    url_paths :=
      match e.url_path with
      | none => a.url_paths
      | some p =>
        if p = "" then a.url_paths
        else if p ∈ a.url_paths then a.url_paths else a.url_paths ++ [p] }

/-- The aggregation loop of `detect_from_network_log` over an
insertion-ordered association list of per-domain aggregates. -/
def buildAggregatesGo : List NetworkLogEntry → List (String × DomainAggregate) →
    List (String × DomainAggregate)
  | [], aggs => aggs
  | e :: rest, aggs =>
    let domain := strTrim (strLower e.destination_domain)
    match resolve_provider domain with
    | none => buildAggregatesGo rest aggs
    | some provider =>
      if (aggs.find? (fun kv => kv.1 == domain)).isSome then
        buildAggregatesGo rest
          (aggs.map (fun kv => if kv.1 == domain then (kv.1, updateAggregate e kv.2) else kv))
      else buildAggregatesGo rest (aggs ++ [(domain, initAggregate provider e)])

/-- Per-domain aggregates for a batch of network log entries. -/
def buildAggregates (entries : List NetworkLogEntry) : List (String × DomainAggregate) :=
  buildAggregatesGo entries []

/-- Python `max(paths, key=len, default="")`: the first path of maximal
length in iteration order (the Python set's iteration order is unspecified;
this model fixes it to first-insertion order). -/
def representativePath : List String → String
  | [] => ""
  | h :: t => t.foldl (fun best p => if best.data.length < p.data.length then p else best) h

/-- Detection record built for one domain aggregate, exactly as the second
loop of `detect_from_network_log` builds it: classify on the representative
path and total bytes, score, look the lower-cased representative path up in
the business-value table, and estimate cost at $0.01 per 4 KiB. -/
def mkNetDetection (tenant_id : ℕ) (domain : String) (agg : DomainAggregate) :
    ShadowAIDetection :=
  let rp := representativePath agg.url_paths
  let sensitivity := classify_data_sensitivity domain rp agg.total_bytes
  let risk_score := compute_risk_score sensitivity agg.provider agg.has_auth
  let business_value := dictGet PATH_TO_BUSINESS_VALUE (strLower rp) "unknown"
  let estimated_daily_cost := pyRound 4 ((agg.total_bytes : ℚ) / 4096 * (1/100))
  { tenant_id := tenant_id
    source_ip := agg.source_ip
    destination_domain := domain
    provider := agg.provider
    estimated_data_sensitivity := sensitivity
    estimated_daily_cost_usd := estimated_daily_cost
    compliance_risk_score := pyRound 2 risk_score
    business_value_indicator := some business_value
    status := "detected" }

/-- `ShadowAIDetectionService.detect_from_network_log`. -/
def detect_from_network_log (tenant_id : ℕ) (entries : List NetworkLogEntry) :
    List ShadowAIDetection :=
  (buildAggregates entries).map (fun kv => mkNetDetection tenant_id kv.1 kv.2)

/-! ## core/services/migration_service.py -/

/-- One value of `SHADOW_TO_AUMOS_MAPPING`: the target AumOS module and the
migration metadata. -/
structure AumosMapping where
  module : String
  complexity : String
  hours : ℚ
  preservation_pct : ℚ
  description : String

/-- `SHADOW_TO_AUMOS_MAPPING`, in source order. -/
def SHADOW_TO_AUMOS_MAPPING : List (String × AumosMapping) := [
  ("code-assist",
    { module := "aumos-llm-serving", complexity := "trivial", hours := 2,
      preservation_pct := 95,
      description := "Route code assistance through governed LLM serving with full audit trail, model governance policies, and data residency controls." }),
  ("text-generation",
    { module := "aumos-text-engine", complexity := "moderate", hours := 8,
      preservation_pct := 90,
      description := "Replace direct API calls with AumOS text engine supporting PII detection, differential privacy output filtering, and structured output validation." }),
  ("data-analysis",
    { module := "aumos-context-graph", complexity := "moderate", hours := 16,
      preservation_pct := 85,
      description := "Migrate analytics workflows to graph-accelerated RAG with data governance, fine-grained access control, and provenance tracking." }),
  ("image-generation",
    { module := "aumos-image-engine", complexity := "moderate", hours := 4,
      preservation_pct := 90,
      description := "Route image generation through governed pipeline with C2PA provenance watermarking, content policy enforcement, and brand safety filters." }),
  ("productivity",
    { module := "aumos-llm-serving", complexity := "trivial", hours := 4,
      preservation_pct := 92,
      description := "Replace general productivity AI usage with governed LLM serving endpoint featuring session management, rate limiting, and usage analytics." }),
  ("audio",
    { module := "aumos-audio-engine", complexity := "moderate", hours := 8,
      preservation_pct := 88,
      description := "Migrate audio AI usage (transcription, TTS) to AumOS audio engine with speaker anonymisation support and DLP scanning on transcripts." }),
  ("video",
    { module := "aumos-video-engine", complexity := "complex", hours := 24,
      preservation_pct := 80,
      description := "Migrate video AI processing to AumOS video engine with content provenance, deepfake detection, and governed frame-level analysis." }),
  ("embedding",
    { module := "aumos-context-graph", complexity := "moderate", hours := 12,
      preservation_pct := 88,
      description := "Replace external embedding API calls with AumOS context graph embedding service supporting private vector stores and tenant isolation." }),
  ("fine-tuning",
    { module := "aumos-llm-serving", complexity := "complex", hours := 40,
      preservation_pct := 75,
      description := "Migrate fine-tuning workflows to governed MLOps lifecycle with model registry integration, training data governance, and bias evaluation." }),
  ("document-processing",
    { module := "aumos-text-engine", complexity := "moderate", hours := 10,
      preservation_pct := 90,
      description := "Replace AI document processing with AumOS text engine OCR and extraction capabilities featuring DLP and classification enforcement." }),
  ("search",
    { module := "aumos-context-graph", complexity := "moderate", hours := 8,
      preservation_pct := 87,
      description := "Migrate semantic search to AumOS context graph with tenant-scoped vector store, access control policies, and audit logging." }),
  ("summarisation",
    { module := "aumos-text-engine", complexity := "trivial", hours := 4,
      preservation_pct := 92,
      description := "Replace summarisation API calls with AumOS text engine endpoints that apply length and sensitivity-level constraints per tenant policy." }),
  ("translation",
    { module := "aumos-text-engine", complexity := "trivial", hours := 3,
      preservation_pct := 95,
      description := "Route translation requests through AumOS text engine translation service with content classification and jurisdictional compliance." }),
  ("classification",
    { module := "aumos-context-graph", complexity := "moderate", hours := 14,
      preservation_pct := 86,
      description := "Migrate AI classification tasks to AumOS context graph with governed label taxonomies, confidence thresholds, and explainability reports." }),
  ("unknown",
    { module := "aumos-llm-serving", complexity := "moderate", hours := 8,
      preservation_pct := 85,
      description := "Route unclassified AI API usage through governed LLM serving endpoint. Usage pattern will be further analysed during migration planning." })]

/-- The `unknown` fallback entry, `SHADOW_TO_AUMOS_MAPPING["unknown"]`
(the junk default of the lookup is unreachable: the key is present). -/
def SHADOW_UNKNOWN_MAPPING : AumosMapping :=
  dictGet SHADOW_TO_AUMOS_MAPPING "unknown"
    { module := "", complexity := "", hours := 0, preservation_pct := 0, description := "" }

/-- `ShadowMigrationProposal` restricted to the fields the mapper computes
(UUIDs and clock timestamps omitted: nondeterministic, unread by claims). -/
structure ShadowMigrationProposal where
  tenant_id : ℕ
  proposed_aumos_module : String
  migration_complexity : String
  estimated_migration_hours : ℚ
  productivity_preservation_pct : ℚ
  compliance_gain_description : String

/-- `MigrationProposalService.generate_proposal`: coerce a falsy (null or
empty) indicator to `"unknown"`, look it up, and fall back to the
`"unknown"` mapping on a miss. Total: never raises. -/
def generate_proposal (detection : ShadowAIDetection) : ShadowMigrationProposal :=
  let indicator :=
    match detection.business_value_indicator with
    | none => "unknown"
    | some s => if s = "" then "unknown" else s
  let mapping := dictGet SHADOW_TO_AUMOS_MAPPING indicator SHADOW_UNKNOWN_MAPPING
  { tenant_id := detection.tenant_id
    proposed_aumos_module := mapping.module
    migration_complexity := mapping.complexity
    estimated_migration_hours := mapping.hours
    productivity_preservation_pct := mapping.preservation_pct
    compliance_gain_description := mapping.description }

/-! ## core/services/amnesty_service.py -/

/-- `AmnestyProgram` (models/shadow_detection.py). Timestamps are rational
seconds; the UUID columns are abstracted to naturals. -/
structure AmnestyProgram where
  id : ℕ
  tenant_id : ℕ
  notification_message : String
  grace_period_days : ℤ
  grace_period_expires_at : Option ℚ
  status : String
  affected_user_count : ℤ
  initiated_by : Option ℕ
  enforcement_started_at : Option ℚ
  cancellation_reason : Option String

/-- `AmnestyStatus` dataclass. -/
structure AmnestyStatus where
  tenant_id : ℕ
  program_id : Option ℕ
  status : String
  grace_period_days : ℤ
  grace_period_expires_at : Option ℚ
  affected_user_count : ℤ
  is_active : Bool
  enforcement_started_at : Option ℚ

/-- `AmnestyProgramRepository.create`: builds the stored record. The
`affected_user_count` parameter carries the caller-supplied snapshot and
defaults to 0 at the Python call sites that omit it. -/
def amnestyRepoCreate (id tenant_id : ℕ) (notification_message : String)
    (grace_period_days : ℤ) (grace_period_expires_at : ℚ) (status : String)
    (initiated_by : Option ℕ) (affected_user_count : ℤ) : AmnestyProgram :=
  { id := id
    tenant_id := tenant_id
    notification_message := notification_message
    grace_period_days := grace_period_days
    grace_period_expires_at := some grace_period_expires_at
    status := status
    affected_user_count := affected_user_count
    initiated_by := initiated_by
    enforcement_started_at := none
    cancellation_reason := none }

/-- `AmnestyProgramService.initiate_amnesty`: expiry is `now` plus
`grace_period_days` days; the service omits `affected_user_count`, so the
repository default 0 applies. The returned program is also the persisted
one. -/
def initiate_amnesty (id tenant_id : ℕ) (message : String) (grace_period_days : ℤ)
    (initiated_by : Option ℕ) (now : ℚ) : AmnestyProgram :=
  amnestyRepoCreate id tenant_id message grace_period_days
    (now + grace_period_days * 86400) "active" initiated_by 0

/-- `AmnestyProgramService.get_amnesty_status`, with the repository fetch
made explicit: `stored` is what `get_active_for_tenant` returned, and the
second component of the result is the stored program after the call (the
lazy `enforcing` transition persists `enforcement_started_at = now`). The
snapshot's own `enforcement_started_at` is read from the pre-update
in-memory record, exactly as the source does. -/
def get_amnesty_status (tenant_id : ℕ) (stored : Option AmnestyProgram) (now : ℚ) :
    AmnestyStatus × Option AmnestyProgram :=
  match stored with
  | none =>
    ({ tenant_id := tenant_id
       program_id := none
       status := "none"
       grace_period_days := 0
       grace_period_expires_at := none
       affected_user_count := 0
       is_active := false
       enforcement_started_at := none }, none)
  | some program =>
    let expired : Bool :=
      match program.grace_period_expires_at with
      | none => false
      | some e => e ≤ now
    let transitions : Bool :=
      (program.status == "active" || program.status == "grace_period") && expired
    let current_status := if transitions then "enforcing" else program.status
    let stored' :=
      if transitions then
        some { program with status := "enforcing", enforcement_started_at := some now }
      else some program
    ({ tenant_id := tenant_id
       program_id := some program.id
       status := current_status
       grace_period_days := program.grace_period_days
       grace_period_expires_at := program.grace_period_expires_at
       affected_user_count := program.affected_user_count
       is_active := current_status == "active" || current_status == "grace_period"
       enforcement_started_at := program.enforcement_started_at }, stored')

/-! ## Claim-side path predicates -/

/-- Whether a URL path, lower-cased, contains a fine-tuning/training
fragment (rule 1 of the sensitivity decision list). -/
def pathHasFineTuningFrag (path : String) : Bool :=
  FINE_TUNING_FRAGMENTS.any (fun frag => strContainsSub (strLower path) frag)

/-- Whether a URL path, lower-cased, contains a high-sensitivity inference
fragment (rule 4 of the sensitivity decision list). -/
def pathHasHighSensFrag (path : String) : Bool :=
  HIGH_SENSITIVITY_PATH_FRAGMENTS.any (fun frag => strContainsSub (strLower path) frag)

/-! ## Helper lemmas -/

theorem roundHalfToEven_intCast (z : ℤ) : roundHalfToEven (z : ℚ) = z := by
  simp [roundHalfToEven]

theorem roundHalfToEven_le (x : ℚ) :
    ⌊x⌋ ≤ roundHalfToEven x ∧ roundHalfToEven x ≤ ⌊x⌋ + 1 := by
  unfold roundHalfToEven
  split_ifs <;> omega

theorem pyRound_intCast (z : ℤ) : pyRound 2 (z : ℚ) = z := by
  have h : ((z : ℚ) * 10 ^ 2) = ((z * 100 : ℤ) : ℚ) := by push_cast; ring
  rw [pyRound, h, roundHalfToEven_intCast]
  push_cast
  ring_nf

theorem pyRound2_nonneg {x : ℚ} (hx : 0 ≤ x) : 0 ≤ pyRound 2 x := by
  have h1 : (0 : ℤ) ≤ ⌊x * 10 ^ 2⌋ := by
    apply Int.floor_nonneg.mpr
    positivity
  have h2 := (roundHalfToEven_le (x * 10 ^ 2)).1
  rw [pyRound]
  have : (0 : ℤ) ≤ roundHalfToEven (x * 10 ^ 2) := le_trans h1 h2
  positivity

theorem pyRound2_le_100 {x : ℚ} (hx : x ≤ 99) : pyRound 2 x ≤ 100 := by
  have hfl : ⌊x * 10 ^ 2⌋ ≤ 9900 := by
    have h : ⌊x * 10 ^ 2⌋ ≤ ⌊(9900 : ℚ)⌋ := Int.floor_le_floor (by nlinarith)
    simpa using h
  have h2 := (roundHalfToEven_le (x * 10 ^ 2)).2
  have hz : roundHalfToEven (x * 10 ^ 2) ≤ 9901 := by omega
  have hq : ((roundHalfToEven (x * 10 ^ 2) : ℚ)) ≤ 9901 := by exact_mod_cast hz
  rw [pyRound, div_le_iff₀ (by norm_num : (0 : ℚ) < 10 ^ 2)]
  linarith

theorem dictGet_mem_or_default {α : Type} (m : List (String × α)) (k : String) (d : α) :
    dictGet m k d = d ∨ ∃ kv ∈ m, dictGet m k d = kv.2 := by
  rw [dictGet]
  cases hf : m.find? (fun kv => kv.1 == k) with
  | none => exact Or.inl rfl
  | some kv => exact Or.inr ⟨kv, List.mem_of_find?_eq_some hf, rfl⟩

theorem dictGet_bounds {m : List (String × ℚ)} {k : String} {d lo hi : ℚ}
    (hm : ∀ kv ∈ m, lo ≤ kv.2 ∧ kv.2 ≤ hi) (hd₁ : lo ≤ d) (hd₂ : d ≤ hi) :
    lo ≤ dictGet m k d ∧ dictGet m k d ≤ hi := by
  rcases dictGet_mem_or_default m k d with h | ⟨kv, hkv, h⟩
  · rw [h]; exact ⟨hd₁, hd₂⟩
  · rw [h]; exact hm kv hkv

theorem sensitivity_weights_bounds :
    ∀ kv ∈ SENSITIVITY_WEIGHTS, (1 : ℚ)/10 ≤ kv.2 ∧ kv.2 ≤ 1 := by
  intro kv hkv
  fin_cases hkv <;> norm_num

theorem provider_risk_weights_bounds :
    ∀ kv ∈ PROVIDER_RISK_WEIGHTS, (3 : ℚ)/10 ≤ kv.2 ∧ kv.2 ≤ 9/10 := by
  intro kv hkv
  fin_cases hkv <;> norm_num

/-! ## Claim C1 -/

/-- Claim C1: for every sensitivity string, provider string and boolean
auth flag, `compute_risk_score` returns `round(min(raw*100, 100), 2)` where
`raw = sensitivity_weight*0.4 + compliance_risk*0.4 + provider_risk*0.2`,
with the sensitivity weight looked up in the fixed table (default 0.1), the
compliance risk 0.6/0.3 by auth plus 0.2 capped at 1.0 for high/critical,
and the provider risk from the fixed table (default 0.8); the result always
lies in [0, 100]. -/
theorem compute_risk_score_formula_and_range (sensitivity provider : String) (has_auth : Bool) :
    compute_risk_score sensitivity provider has_auth =
      pyRound 2 (min ((dictGet SENSITIVITY_WEIGHTS sensitivity (1/10) * (4/10) +
        (if sensitivity = "high" ∨ sensitivity = "critical" then
          min ((if has_auth then (6 : ℚ)/10 else 3/10) + 2/10) 1
         else if has_auth then (6 : ℚ)/10 else 3/10) * (4/10) +
        dictGet PROVIDER_RISK_WEIGHTS provider DEFAULT_PROVIDER_RISK * (2/10)) * 100) 100) ∧
    0 ≤ compute_risk_score sensitivity provider has_auth ∧
    compute_risk_score sensitivity provider has_auth ≤ 100 := by
  have hsw := dictGet_bounds sensitivity_weights_bounds (le_refl ((1:ℚ)/10)) (by norm_num)
    (k := sensitivity)
  have hpr := dictGet_bounds provider_risk_weights_bounds (by norm_num [DEFAULT_PROVIDER_RISK])
    (by norm_num [DEFAULT_PROVIDER_RISK]) (k := provider) (d := DEFAULT_PROVIDER_RISK)
  set sw := dictGet SENSITIVITY_WEIGHTS sensitivity (1/10) with hsw_def
  set pr := dictGet PROVIDER_RISK_WEIGHTS provider DEFAULT_PROVIDER_RISK with hpr_def
  set cr : ℚ := (if sensitivity = "high" ∨ sensitivity = "critical" then
      min ((if has_auth then (6 : ℚ)/10 else 3/10) + 2/10) 1
    else if has_auth then (6 : ℚ)/10 else 3/10) with hcr_def
  have hcr : (3:ℚ)/10 ≤ cr ∧ cr ≤ 1 := by
    rw [hcr_def]
    split_ifs <;> norm_num [min_def]
  have heq : compute_risk_score sensitivity provider has_auth =
      pyRound 2 (min ((sw * (4/10) + cr * (4/10) + pr * (2/10)) * 100) 100) := rfl
  refine ⟨heq, ?_, ?_⟩
  · rw [heq]
    apply pyRound2_nonneg
    apply le_min
    · nlinarith [hsw.1, hsw.2, hpr.1, hpr.2, hcr.1, hcr.2]
    · norm_num
  · rw [heq]
    apply pyRound2_le_100
    have : (sw * (4/10) + cr * (4/10) + pr * (2/10)) * 100 ≤ 98 := by
      nlinarith [hsw.1, hsw.2, hpr.1, hpr.2, hcr.1, hcr.2]
    exact le_trans (min_le_left _ _) (by linarith)

/-! ## Claim C3 -/

theorem wildcardScan_eq_find (d : String) :
    ∀ l : List (String × String), wildcardScan l d =
      (l.find? (fun kv => wildcardMatches kv.1 d)).map (fun kv => kv.2) := by
  intro l
  induction l with
  | nil => rfl
  | cons kv rest ih =>
    obtain ⟨pat, pr⟩ := kv
    cases h1 : strStartsWith pat "*." with
    | true =>
      cases h2 : (strEndsWith d (strDrop pat 2) && d != strDrop pat 2) with
      | true => simp [wildcardScan, wildcardMatches, h1, h2, List.find?]
      | false => simp [wildcardScan, wildcardMatches, h1, h2, List.find?, ih]
    | false =>
      cases h3 : strEndsWith pat ".*" with
      | true =>
        cases h4 : strStartsWith d (strDropRight pat 2 ++ ".") with
        | true => simp [wildcardScan, wildcardMatches, h1, h3, h4, List.find?]
        | false => simp [wildcardScan, wildcardMatches, h1, h3, h4, List.find?, ih]
      | false => simp [wildcardScan, wildcardMatches, h1, h3, List.find?, ih]

/-- Claim C3: `resolve_provider` tries exact-dictionary lookup first and on
a miss scans the wildcard entries in order, a `*.suffix` pattern matching
iff the domain ends with the suffix and differs from it and a `prefix.*`
pattern matching iff the domain starts with the prefix and a dot, returning
`none` when nothing matches; in particular `foo.openai.azure.com` resolves
to `azure-openai` while the bare base `openai.azure.com` does not resolve. -/
theorem resolve_provider_algorithm :
    (∀ d : String, resolve_provider d = resolveProviderSpec d) ∧
    resolve_provider "foo.openai.azure.com" = some "azure-openai" ∧
    resolve_provider "openai.azure.com" = none := by
  refine ⟨?_, by decide, by decide⟩
  intro d
  cases hf : EXACT_AI_PROVIDER_DOMAINS.find? (fun kv => kv.1 == d) with
  | some kv => simp [resolve_provider, resolveProviderSpec, hf]
  | none => simp [resolve_provider, resolveProviderSpec, hf, wildcardScan_eq_find]

/-! ## Claim C2 -/

/-- Claim C2: `classify_data_sensitivity` implements exactly the ordered
decision list, first match winning: fine-tuning path fragment (any size,
including 0) gives critical; then size at least 128 KiB gives critical;
then size at least 32 KiB gives high; then a high-sensitivity inference
fragment gives high at size at least 4 KiB and medium below; then size at
least 4 KiB gives medium; otherwise low. -/
theorem classify_decision_list (domain path : String) (size : ℤ) :
    (pathHasFineTuningFrag path = true →
      classify_data_sensitivity domain path size = "critical") ∧
    (pathHasFineTuningFrag path = false → size ≥ 131072 →
      classify_data_sensitivity domain path size = "critical") ∧
    (pathHasFineTuningFrag path = false → size < 131072 → size ≥ 32768 →
      classify_data_sensitivity domain path size = "high") ∧
    (pathHasFineTuningFrag path = false → size < 32768 → pathHasHighSensFrag path = true →
      size ≥ 4096 → classify_data_sensitivity domain path size = "high") ∧
    (pathHasFineTuningFrag path = false → pathHasHighSensFrag path = true → size < 4096 →
      classify_data_sensitivity domain path size = "medium") ∧
    (pathHasFineTuningFrag path = false → size < 32768 → pathHasHighSensFrag path = false →
      size ≥ 4096 → classify_data_sensitivity domain path size = "medium") ∧
    (pathHasFineTuningFrag path = false → pathHasHighSensFrag path = false → size < 4096 →
      classify_data_sensitivity domain path size = "low") := by
  simp only [pathHasFineTuningFrag, pathHasHighSensFrag, classify_data_sensitivity,
    MEDIUM_SENSITIVITY_BYTES, HIGH_SENSITIVITY_BYTES, CRITICAL_SENSITIVITY_BYTES]
  refine ⟨?_, ?_, ?_, ?_, ?_, ?_, ?_⟩ <;> intros <;> split_ifs <;>
    first | rfl | omega | simp_all

/-- Witness for claim C2: a 200-byte request to a fine-tuning path is still
critical, and a small chat-completions request is medium. -/
theorem classify_decision_list_witness :
    classify_data_sensitivity "api.openai.com" "/v1/fine_tuning/jobs" 200 = "critical" ∧
    classify_data_sensitivity "api.openai.com" "/v1/chat/completions" 2048 = "medium" :=
  ⟨(classify_decision_list "api.openai.com" "/v1/fine_tuning/jobs" 200).1 (by decide),
   (classify_decision_list "api.openai.com" "/v1/chat/completions" 2048).2.2.2.2.1
     (by decide) (by decide) (by decide)⟩

/-! ## DNS pipeline structure lemmas (shared by claims C5 and C10) -/

theorem classify_empty_path (d : String) : classify_data_sensitivity d "" 0 = "low" := rfl

theorem analyzeDNSGo_mem (t : ℕ) :
    ∀ (qs : List DNSQuery) (seen : List String) (det : ShadowAIDetection),
      det ∈ analyzeDNSGo t qs seen →
      det.destination_domain ∉ seen ∧
      ∃ q p, strTrim (strLower q.queried_domain) = det.destination_domain ∧
        resolve_provider det.destination_domain = some p ∧
        det = mkDNSDetection t q det.destination_domain p ∧
        qs.find? (fun q' => strTrim (strLower q'.queried_domain) == det.destination_domain) =
          some q := by
  intro qs
  induction qs with
  | nil => intro seen det h; simp [analyzeDNSGo] at h
  | cons q rest ih =>
    intro seen det h
    simp only [analyzeDNSGo] at h
    cases hr : resolve_provider (strTrim (strLower q.queried_domain)) with
    | none =>
      rw [hr] at h
      obtain ⟨hns, q', p, hnorm, hres, hdet, hfind⟩ := ih seen det h
      have hneq : (strTrim (strLower q.queried_domain) == det.destination_domain) = false := by
        apply beq_eq_false_iff_ne.mpr
        intro hEq
        rw [hEq, hres] at hr
        exact Option.noConfusion hr
      refine ⟨hns, q', p, hnorm, hres, hdet, ?_⟩
      simp [List.find?, hneq, hfind]
    | some provider =>
      simp only [hr] at h
      by_cases hseen : strTrim (strLower q.queried_domain) ∈ seen
      · rw [if_pos hseen] at h
        obtain ⟨hns, q', p, hnorm, hres, hdet, hfind⟩ := ih seen det h
        have hneq : (strTrim (strLower q.queried_domain) == det.destination_domain) = false := by
          apply beq_eq_false_iff_ne.mpr
          intro hEq
          rw [← hEq] at hns
          exact hns hseen
        refine ⟨hns, q', p, hnorm, hres, hdet, ?_⟩
        simp [List.find?, hneq, hfind]
      · rw [if_neg hseen] at h
        rcases List.mem_cons.mp h with hhead | htail
        · subst hhead
          refine ⟨hseen, q, provider, rfl, hr, rfl, ?_⟩
          simp [List.find?, mkDNSDetection]
        · obtain ⟨hns, q', p, hnorm, hres, hdet, hfind⟩ :=
            ih (strTrim (strLower q.queried_domain) :: seen) det htail
          have hne : det.destination_domain ≠ strTrim (strLower q.queried_domain) := by
            intro hEq
            exact hns (hEq ▸ List.mem_cons_self _ _)
          have hnseen : det.destination_domain ∉ seen := fun hmem =>
            hns (List.mem_cons_of_mem _ hmem)
          have hneq : (strTrim (strLower q.queried_domain) == det.destination_domain) = false :=
            beq_eq_false_iff_ne.mpr (fun hEq => hne hEq.symm)
          refine ⟨hnseen, q', p, hnorm, hres, hdet, ?_⟩
          simp [List.find?, hneq, hfind]

/-! ## Claim C5 -/

/-- Claim C5: `analyze_dns_queries` deduplicates by normalized domain
within a batch: the same resolvable domain three times yields exactly one
detection; three distinct known-provider domains yield exactly three
detections carrying the providers `resolve_provider` gives; and every
emitted detection takes its source IP from the first query in the batch
with its domain. -/
theorem analyze_dns_queries_dedup :
    (∀ (t : ℕ) (d s1 s2 s3 : String) (a1 a2 a3 : Bool) (p : String),
      resolve_provider (strTrim (strLower d)) = some p →
      (analyze_dns_queries t [⟨d, s1, a1⟩, ⟨d, s2, a2⟩, ⟨d, s3, a3⟩]).length = 1) ∧
    (∀ (t : ℕ) (q1 q2 q3 : DNSQuery) (p1 p2 p3 : String),
      resolve_provider (strTrim (strLower q1.queried_domain)) = some p1 →
      resolve_provider (strTrim (strLower q2.queried_domain)) = some p2 →
      resolve_provider (strTrim (strLower q3.queried_domain)) = some p3 →
      strTrim (strLower q1.queried_domain) ≠ strTrim (strLower q2.queried_domain) →
      strTrim (strLower q1.queried_domain) ≠ strTrim (strLower q3.queried_domain) →
      strTrim (strLower q2.queried_domain) ≠ strTrim (strLower q3.queried_domain) →
      (analyze_dns_queries t [q1, q2, q3]).map (fun det => det.provider) = [p1, p2, p3]) ∧
    (∀ (t : ℕ) (qs : List DNSQuery) (det : ShadowAIDetection),
      det ∈ analyze_dns_queries t qs →
      ∃ q, qs.find? (fun q' => strTrim (strLower q'.queried_domain) == det.destination_domain)
          = some q ∧ det.source_ip = q.source_ip) := by
  refine ⟨?_, ?_, ?_⟩
  · intro t d s1 s2 s3 a1 a2 a3 p hp
    simp [analyze_dns_queries, analyzeDNSGo, hp]
  · intro t q1 q2 q3 p1 p2 p3 h1 h2 h3 h12 h13 h23
    simp [analyze_dns_queries, analyzeDNSGo, h1, h2, h3, h12.symm, h13.symm, h23.symm,
      mkDNSDetection]
  · intro t qs det h
    obtain ⟨-, q, p, -, -, hdet, hfind⟩ := analyzeDNSGo_mem t qs [] det h
    exact ⟨q, hfind, by rw [hdet]; rfl⟩

/-- Witness for claim C5: three identical `api.openai.com` queries give one
detection; `api.openai.com`, `api.anthropic.com` and `claude.ai` give three
detections with providers openai, anthropic, anthropic. -/
theorem analyze_dns_queries_dedup_witness :
    (analyze_dns_queries 0 [⟨"api.openai.com", "10.0.0.1", true⟩,
      ⟨"api.openai.com", "10.0.0.2", false⟩, ⟨"api.openai.com", "10.0.0.3", true⟩]).length
      = 1 ∧
    (analyze_dns_queries 0 [⟨"api.openai.com", "10.0.0.1", true⟩,
      ⟨"api.anthropic.com", "10.0.0.2", false⟩, ⟨"claude.ai", "10.0.0.3", true⟩]).map
        (fun det => det.provider) = ["openai", "anthropic", "anthropic"] :=
  ⟨analyze_dns_queries_dedup.1 0 "api.openai.com" "10.0.0.1" "10.0.0.2" "10.0.0.3"
      true false true "openai" (by decide),
   analyze_dns_queries_dedup.2.1 0 ⟨"api.openai.com", "10.0.0.1", true⟩
      ⟨"api.anthropic.com", "10.0.0.2", false⟩ ⟨"claude.ai", "10.0.0.3", true⟩
      "openai" "anthropic" "anthropic" (by decide) (by decide) (by decide)
      (by decide) (by decide) (by decide)⟩

/-! ## Claim C10 -/

/-- Claim C10: every detection returned by `analyze_dns_queries` has
sensitivity low, business-value indicator unknown, and estimated daily cost
0 (classification runs with empty path and zero size), so its compliance
risk score is determined solely by the resolved provider and an auth
flag. -/
theorem analyze_dns_defaults (t : ℕ) (qs : List DNSQuery) (det : ShadowAIDetection)
    (h : det ∈ analyze_dns_queries t qs) :
    det.estimated_data_sensitivity = "low" ∧
    det.business_value_indicator = some "unknown" ∧
    det.estimated_daily_cost_usd = 0 ∧
    ∃ b : Bool, det.compliance_risk_score = pyRound 2 (compute_risk_score "low" det.provider b) := by
  obtain ⟨-, q, p, -, -, hdet, -⟩ := analyzeDNSGo_mem t qs [] det h
  rw [hdet]
  refine ⟨?_, rfl, rfl, q.has_auth_header, ?_⟩
  · simp [mkDNSDetection, classify_empty_path]
  · simp [mkDNSDetection, classify_empty_path]

/-- Witness for claim C10, at a one-query batch for `api.openai.com`. -/
theorem analyze_dns_defaults_witness :
    (mkDNSDetection 0 ⟨"api.openai.com", "10.0.0.1", true⟩ "api.openai.com"
        "openai").estimated_data_sensitivity = "low" ∧
    (mkDNSDetection 0 ⟨"api.openai.com", "10.0.0.1", true⟩ "api.openai.com"
        "openai").business_value_indicator = some "unknown" ∧
    (mkDNSDetection 0 ⟨"api.openai.com", "10.0.0.1", true⟩ "api.openai.com"
        "openai").estimated_daily_cost_usd = 0 ∧
    ∃ b : Bool,
      (mkDNSDetection 0 ⟨"api.openai.com", "10.0.0.1", true⟩ "api.openai.com"
          "openai").compliance_risk_score =
        pyRound 2 (compute_risk_score "low"
          (mkDNSDetection 0 ⟨"api.openai.com", "10.0.0.1", true⟩ "api.openai.com"
            "openai").provider b) :=
  analyze_dns_defaults 0 [⟨"api.openai.com", "10.0.0.1", true⟩] _
    (List.mem_singleton_self _)

/-! ## Claim C4 -/

/-- Claim C4: for a tenant whose stored non-terminal program is active or
grace_period with its expiry not after the current time, a status read
transitions the program to enforcing, persisting `enforcement_started_at`
equal to that call's now, and returns a snapshot with status enforcing and
`is_active` false; with no non-terminal program stored it returns the
synthetic status none with `is_active` false and a null program id. -/
theorem get_amnesty_status_lazy_transition
    (tenant : ℕ) (p : AmnestyProgram) (now e : ℚ)
    (hst : p.status = "active" ∨ p.status = "grace_period")
    (hexp : p.grace_period_expires_at = some e) (hle : e ≤ now) :
    ((get_amnesty_status tenant (some p) now).1.status = "enforcing" ∧
     (get_amnesty_status tenant (some p) now).1.is_active = false ∧
     (get_amnesty_status tenant (some p) now).2 =
       some { p with status := "enforcing", enforcement_started_at := some now }) ∧
    (∀ (t : ℕ) (n : ℚ),
      (get_amnesty_status t none n).1.status = "none" ∧
      (get_amnesty_status t none n).1.is_active = false ∧
      (get_amnesty_status t none n).1.program_id = none) := by
  constructor
  · rcases hst with h | h <;> simp [get_amnesty_status, h, hexp, hle]
  · intro t n
    simp [get_amnesty_status]

/-- Witness for claim C4: a concrete active program whose expiry 50 is
before now = 100. -/
theorem get_amnesty_status_lazy_transition_witness :
    ((get_amnesty_status 9
        (some ⟨1, 9, "please migrate", 14, some 50, "active", 3, none, none, none⟩)
        100).1.status = "enforcing" ∧
     (get_amnesty_status 9
        (some ⟨1, 9, "please migrate", 14, some 50, "active", 3, none, none, none⟩)
        100).1.is_active = false ∧
     (get_amnesty_status 9
        (some ⟨1, 9, "please migrate", 14, some 50, "active", 3, none, none, none⟩)
        100).2 =
       some { (⟨1, 9, "please migrate", 14, some 50, "active", 3, none, none, none⟩ :
           AmnestyProgram) with
         status := "enforcing", enforcement_started_at := some 100 }) ∧
    (∀ (t : ℕ) (n : ℚ),
      (get_amnesty_status t none n).1.status = "none" ∧
      (get_amnesty_status t none n).1.is_active = false ∧
      (get_amnesty_status t none n).1.program_id = none) :=
  get_amnesty_status_lazy_transition 9
    ⟨1, 9, "please migrate", 14, some 50, "active", 3, none, none, none⟩ 100 50
    (Or.inl rfl) rfl (by norm_num)

/-! ## Claim C8 -/

/-- Claim C8: `initiate_amnesty` returns a program in status active whose
expiry equals the initiation time plus the grace period in days, persisted
with `affected_user_count` initialised to the snapshot the repository call
receives, which is 0 because the service omits it. -/
theorem initiate_amnesty_active (id t : ℕ) (msg : String) (g : ℤ) (ini : Option ℕ) (now : ℚ) :
    (initiate_amnesty id t msg g ini now).status = "active" ∧
    (initiate_amnesty id t msg g ini now).grace_period_expires_at = some (now + g * 86400) ∧
    (initiate_amnesty id t msg g ini now).affected_user_count = 0 :=
  ⟨rfl, rfl, rfl⟩

/-! ## Claim C9 -/

/-- Claim C9: the migration mapping has 15 entries (14 explicit indicators
plus unknown), each complete (non-empty module, complexity among trivial,
moderate, complex, positive hours, preservation percentage within 0-100,
non-empty description), and `generate_proposal` on a detection whose
indicator is null or absent from the table never raises: it builds the
proposal from the unknown mapping. -/
theorem migration_mapping_complete :
    SHADOW_TO_AUMOS_MAPPING.length = 15 ∧
    (SHADOW_TO_AUMOS_MAPPING.find? (fun kv => kv.1 == "unknown")).isSome = true ∧
    (∀ kv ∈ SHADOW_TO_AUMOS_MAPPING,
      kv.2.module ≠ "" ∧
      (kv.2.complexity = "trivial" ∨ kv.2.complexity = "moderate" ∨
        kv.2.complexity = "complex") ∧
      0 < kv.2.hours ∧ 0 ≤ kv.2.preservation_pct ∧ kv.2.preservation_pct ≤ 100 ∧
      kv.2.description ≠ "") ∧
    (∀ det : ShadowAIDetection,
      (∀ s, det.business_value_indicator = some s →
        SHADOW_TO_AUMOS_MAPPING.find? (fun kv => kv.1 == s) = none) →
      (generate_proposal det).proposed_aumos_module = SHADOW_UNKNOWN_MAPPING.module ∧
      (generate_proposal det).migration_complexity = SHADOW_UNKNOWN_MAPPING.complexity ∧
      (generate_proposal det).estimated_migration_hours = SHADOW_UNKNOWN_MAPPING.hours ∧
      (generate_proposal det).productivity_preservation_pct =
        SHADOW_UNKNOWN_MAPPING.preservation_pct ∧
      (generate_proposal det).compliance_gain_description =
        SHADOW_UNKNOWN_MAPPING.description) := by
  refine ⟨rfl, by decide, ?_, ?_⟩
  · intro kv hkv
    fin_cases hkv <;>
      exact ⟨by decide, by decide, by norm_num, by norm_num, by norm_num, by decide⟩
  · intro det hmiss
    cases hbvi : det.business_value_indicator with
    | none =>
      simp only [generate_proposal, hbvi]
      exact ⟨rfl, rfl, rfl, rfl, rfl⟩
    | some s =>
      have hm := hmiss s hbvi
      by_cases hs : s = ""
      · subst hs
        simp only [generate_proposal, hbvi]
        exact ⟨rfl, rfl, rfl, rfl, rfl⟩
      · simp only [generate_proposal, hbvi, if_neg hs]
        rw [dictGet, hm]
        exact ⟨rfl, rfl, rfl, rfl, rfl⟩

/-- Witness for claim C9: a detection with the novel indicator
`novel-workload` receives the unknown mapping. -/
theorem migration_mapping_complete_witness :
    (generate_proposal
        ⟨0, "10.0.0.1", "api.openai.com", "openai", "low", 0, 0, some "novel-workload",
          "detected"⟩).proposed_aumos_module = SHADOW_UNKNOWN_MAPPING.module ∧
    (generate_proposal
        ⟨0, "10.0.0.1", "api.openai.com", "openai", "low", 0, 0, some "novel-workload",
          "detected"⟩).migration_complexity = SHADOW_UNKNOWN_MAPPING.complexity ∧
    (generate_proposal
        ⟨0, "10.0.0.1", "api.openai.com", "openai", "low", 0, 0, some "novel-workload",
          "detected"⟩).estimated_migration_hours = SHADOW_UNKNOWN_MAPPING.hours ∧
    (generate_proposal
        ⟨0, "10.0.0.1", "api.openai.com", "openai", "low", 0, 0, some "novel-workload",
          "detected"⟩).productivity_preservation_pct = SHADOW_UNKNOWN_MAPPING.preservation_pct ∧
    (generate_proposal
        ⟨0, "10.0.0.1", "api.openai.com", "openai", "low", 0, 0, some "novel-workload",
          "detected"⟩).compliance_gain_description = SHADOW_UNKNOWN_MAPPING.description :=
  migration_mapping_complete.2.2.2 _ (fun s hs => by cases hs; rfl)

/-! ## Claim C7 -/

/-- Counterexample to claim C7 as stated: `resolve_provider` does not
lower-case or trim its input — `API.OPENAI.COM` and ` api.openai.com `
resolve to nothing even though their normalized form resolves to openai. -/
theorem resolve_provider_no_normalization :
    resolve_provider "API.OPENAI.COM" = none ∧
    resolve_provider " api.openai.com " = none ∧
    resolve_provider "api.openai.com" = some "openai" ∧
    strTrim (strLower "API.OPENAI.COM") = "api.openai.com" :=
  ⟨by decide, by decide, by decide, by decide⟩

/-- Claim C7 amended: the lower-casing and trimming happen in the caller —
`analyze_dns_queries` normalizes the queried domain before calling
`resolve_provider`, so a batch query for any spelling whose normalized form
resolves yields a detection with that provider. -/
theorem analyze_dns_normalizes_before_resolve (t : ℕ) (q : DNSQuery) (p : String)
    (h : resolve_provider (strTrim (strLower q.queried_domain)) = some p) :
    (analyze_dns_queries t [q]).map (fun det => det.provider) = [p] := by
  simp [analyze_dns_queries, analyzeDNSGo, h, mkDNSDetection]

/-- Witness for the amended claim C7: `API.OPENAI.COM` and
` api.openai.com ` both produce an openai detection through the pipeline. -/
theorem analyze_dns_normalizes_before_resolve_witness :
    (analyze_dns_queries 0 [⟨"API.OPENAI.COM", "10.0.0.2", false⟩]).map
      (fun det => det.provider) = ["openai"] ∧
    (analyze_dns_queries 0 [⟨" api.openai.com ", "10.0.0.3", false⟩]).map
      (fun det => det.provider) = ["openai"] :=
  ⟨analyze_dns_normalizes_before_resolve 0 ⟨"API.OPENAI.COM", "10.0.0.2", false⟩ "openai"
     (by decide),
   analyze_dns_normalizes_before_resolve 0 ⟨" api.openai.com ", "10.0.0.3", false⟩ "openai"
     (by decide)⟩

/-! ## Claim C6 -/

/-- Counterexample to claim C6 as stated: the representative path
`/api/v1/chat/completions` contains the table fragment
`/v1/chat/completions` (whose indicator is text-generation), yet the
emitted detection carries the indicator unknown, because the code performs
an exact lookup of the whole lowered path, not fragment containment. -/
theorem detect_business_value_counterexample :
    (detect_from_network_log 0
      [⟨"10.0.0.1", "api.openai.com", some "/api/v1/chat/completions", 0, false⟩]).map
        (fun det => det.business_value_indicator) = [some "unknown"] ∧
    strContainsSub "/api/v1/chat/completions" "/v1/chat/completions" = true ∧
    dictGet PATH_TO_BUSINESS_VALUE "/v1/chat/completions" "unknown" = "text-generation" :=
  ⟨by decide, by decide, by decide⟩

/-- Claim C6 amended: for every emitted domain group the business-value
indicator is obtained by an exact lookup of the lower-cased representative
path in the fixed table, defaulting to unknown when that path is not
exactly a table key (so a path that merely contains a fragment yields
unknown). -/
theorem detect_business_value_exact_lookup (t : ℕ) (entries : List NetworkLogEntry)
    (det : ShadowAIDetection) (h : det ∈ detect_from_network_log t entries) :
    ∃ kv ∈ buildAggregates entries, kv.1 = det.destination_domain ∧
      det.business_value_indicator =
        some (dictGet PATH_TO_BUSINESS_VALUE (strLower (representativePath kv.2.url_paths))
          "unknown") := by
  rw [detect_from_network_log] at h
  obtain ⟨kv, hkv, hdet⟩ := List.mem_map.mp h
  exact ⟨kv, hkv, by rw [← hdet]; rfl, by rw [← hdet]; rfl⟩

/-- Witness for the amended claim C6, at a one-entry batch. -/
theorem detect_business_value_exact_lookup_witness :
    ∃ kv ∈ buildAggregates
        [⟨"10.0.0.1", "api.openai.com", some "/api/v1/chat/completions", 0, false⟩],
      kv.1 = (mkNetDetection 0 "api.openai.com"
        (initAggregate "openai"
          ⟨"10.0.0.1", "api.openai.com", some "/api/v1/chat/completions", 0,
            false⟩)).destination_domain ∧
      (mkNetDetection 0 "api.openai.com"
        (initAggregate "openai"
          ⟨"10.0.0.1", "api.openai.com", some "/api/v1/chat/completions", 0,
            false⟩)).business_value_indicator =
        some (dictGet PATH_TO_BUSINESS_VALUE (strLower (representativePath kv.2.url_paths))
          "unknown") :=
  detect_business_value_exact_lookup 0
    [⟨"10.0.0.1", "api.openai.com", some "/api/v1/chat/completions", 0, false⟩] _
    (List.mem_singleton_self _)
